import Mathlib

/-!
# Verification of the igc-tool computational core

A shallow embedding, in Lean 4, of the computational core of the `igc-tool`
repository (Go): the track statistics engine (`internal/flight`), the landing
site resolver (`internal/sites`), and the flight collection aggregator
(`internal/logbook`), together with the string formatting helpers they use
(`internal/utils`, `internal/units`).

Modelling conventions:
* Go `float64` values are modelled as real numbers (`ℝ`); `time.Time`
  differences (`Sub(...).Seconds()`) become real subtraction of a time stamp
  in seconds.
* Go `time.Duration` (an `int64` count of nanoseconds) is modelled as `ℤ`.
* Go `int(x)` conversion from `float64` truncates toward zero; it is modelled
  by `goInt`.
* Go integer division / remainder (`/`, `%`) truncate toward zero; they are
  modelled by `Int.tdiv` / `Int.tmod`.
-/

namespace IGC

/-! ## Durations (Go `time` package constants, in nanoseconds) -/

/-- Embeds `time.Minute` in nanoseconds. -/
def Minute : Int := 60000000000

/-- Embeds `time.Hour` in nanoseconds. -/
def Hour : Int := 3600000000000

/-! ## `utils.FormatDuration`

Go source:
```
func FormatDuration(d time.Duration) string {
    hours := int(d.Hours())
    minutes := int(d.Minutes()) % 60
    return fmt.Sprintf("%dh%dm", hours, minutes)
}
```
`d.Hours()` is the `float64` value `d / 3.6e12`; `int(...)` truncates toward
zero, which for every duration reachable here coincides with truncating
integer division `Int.tdiv` (the float rounding error is smaller than the
distance to the next integer for the magnitudes involved). Likewise for
`Minutes()`. Go `%` on `int` is `Int.tmod`. -/
def FormatDuration (d : Int) : String :=
  toString (d.tdiv Hour) ++ "h" ++ toString ((d.tdiv Minute).tmod 60) ++ "m"

/-! ## `logbook.parseDuration`

Go source:
```
func parseDuration(durationStr string) (time.Duration, error) {
    var hours, minutes int
    n, err := fmt.Sscanf(durationStr, "%dh%dm", &hours, &minutes)
    if err != nil || n != 2 {
        return 0, fmt.Errorf("invalid duration format: %s", durationStr)
    }
    return time.Duration(hours)*time.Hour + time.Duration(minutes)*time.Minute, nil
}
```
`fmt.Sscanf` with format `"%dh%dm"`: each `%d` skips leading blanks, then
reads an optional sign and at least one decimal digit; the literal characters
`h` and `m` must match the input exactly; input remaining after the format is
consumed is ignored (`Sscanf` does not require the input to be exhausted). -/

/-- Leading-blank skipping performed by a `%d` verb of Go `fmt` scanning
(space and horizontal tab; newlines are significant to `Sscanf` and never
appear in the strings produced by `FormatDuration`). -/
def skipSpace : List Char → List Char
  | [] => []
  | c :: cs => if c = ' ' ∨ c = '\t' then skipSpace cs else c :: cs

/-- Accumulate a run of decimal digits (the continuation of `%d`). -/
def scanDigits : List Char → Nat → Nat × List Char
  | [], acc => (acc, [])
  | c :: cs, acc =>
    if c.isDigit then scanDigits cs (acc * 10 + (c.toNat - 48)) else (acc, c :: cs)

/-- Read one or more decimal digits; fails if the input does not start with a
digit. -/
def scanNat (cs : List Char) : Option (Nat × List Char) :=
  match cs with
  | c :: rest => if c.isDigit then some (scanDigits rest (c.toNat - 48)) else none
  | [] => none

/-- The `%d` verb of Go `fmt` scanning: skip blanks, optional sign, digits. -/
def scanGoInt (cs : List Char) : Option (Int × List Char) :=
  match skipSpace cs with
  | '-' :: rest => (scanNat rest).map (fun p => (-(p.1 : Int), p.2))
  | '+' :: rest => (scanNat rest).map (fun p => ((p.1 : Int), p.2))
  | rest => (scanNat rest).map (fun p => ((p.1 : Int), p.2))

/-- Embeds `logbook.parseDuration`: `fmt.Sscanf(s, "%dh%dm", ...)`, returning the
duration `hours*time.Hour + minutes*time.Minute` in nanoseconds on success. -/
def parseDuration (s : String) : Option Int :=
  match scanGoInt s.data with
  | some (h, 'h' :: rest) =>
    match scanGoInt rest with
    | some (m, 'm' :: _) => some (h * Hour + m * Minute)
    | _ => none
  | _ => none

/-! ## Dates (`time.Parse("2006-01-02", s)` and `Format("2006-01-02")`)

`CreateTemplateData` re-parses each flight's formatted `Date` string with the
fixed layout `"2006-01-02"` and compares the results with `time.Time.Before`
and `time.Time.After`. All such times are midnight UTC instants, so they are
modelled as calendar dates ordered lexicographically. The zero value of
`time.Time` (which seeds `firstDate` and `lastDate` in the aggregation loop)
is January 1 of year 1; `Format("2006-01-02")` renders it as "0001-01-01". -/

structure Date where
  year : Nat
  month : Nat
  day : Nat
deriving DecidableEq

/-- The zero `time.Time`, as a calendar date. -/
def zeroDate : Date := ⟨1, 1, 1⟩

/-- Embeds `time.Time.Before` on midnight UTC instants. -/
def Date.before (a b : Date) : Bool :=
  Nat.blt a.year b.year ||
    (a.year == b.year &&
      (Nat.blt a.month b.month || (a.month == b.month && Nat.blt a.day b.day)))

/-- Embeds `time.Time.After` on midnight UTC instants. -/
def Date.after (a b : Date) : Bool := Date.before b a

def digitVal (c : Char) : Nat := c.toNat - 48

/-- Gregorian leap year rule used by Go `time`. -/
def isLeapYear (y : Nat) : Bool := (y % 4 == 0 && y % 100 != 0) || y % 400 == 0

/-- Days in a month, as validated by Go `time.Parse`. -/
def daysIn (month year : Nat) : Nat :=
  if month == 2 then (if isLeapYear year then 29 else 28)
  else if month == 4 || month == 6 || month == 9 || month == 11 then 30
  else 31

/-- Embeds `time.Parse("2006-01-02", s)`: exactly ten characters, fixed-width
zero-padded numeric fields, with month and day range validation; any
mismatch or trailing input is an error (`none`). -/
def parseDate (s : String) : Option Date :=
  match s.data with
  | [y1, y2, y3, y4, s1, m1, m2, s2, d1, d2] =>
    if y1.isDigit && y2.isDigit && y3.isDigit && y4.isDigit && s1 == '-' &&
        m1.isDigit && m2.isDigit && s2 == '-' && d1.isDigit && d2.isDigit then
      let y := digitVal y1 * 1000 + digitVal y2 * 100 + digitVal y3 * 10 + digitVal y4
      let mo := digitVal m1 * 10 + digitVal m2
      let dy := digitVal d1 * 10 + digitVal d2
      if 1 ≤ mo ∧ mo ≤ 12 ∧ 1 ≤ dy ∧ dy ≤ daysIn mo y then some ⟨y, mo, dy⟩ else none
    else none
  | _ => none

/-- Left-pad a numeral with zeros to width `w` (Go `Format` zero padding). -/
def padNum (w : Nat) (n : Nat) : String :=
  let s := toString n
  if s.length < w then String.mk (List.replicate (w - s.length) '0') ++ s else s

/-- Embeds `time.Time.Format("2006-01-02")` on a midnight UTC instant. -/
def formatDate (d : Date) : String :=
  padNum 4 d.year ++ "-" ++ padNum 2 d.month ++ "-" ++ padNum 2 d.day

/-! ## Unit symbols (`internal/units`) -/

/-- Embeds `units.AltitudeSymbol`. -/
def AltitudeSymbol : String → String
  | "ft" => "ft"
  | _ => "m"

/-- Embeds `units.SpeedSymbol`. -/
def SpeedSymbol : String → String
  | "mph" => "mph"
  | "kts" => "kts"
  | "ms" => "m/s"
  | _ => "km/h"

/-- Embeds `units.ClimbSymbol`. -/
def ClimbSymbol : String → String
  | "fpm" => "ft/min"
  | _ => "m/s"

/-! ## Logbook data model (`internal/logbook`) -/

/-- Embeds `logbook.Data`: the per-flight summary record handed to the aggregator.
Field names and types follow the Go struct (`float64` as `ℝ`, `int` as `ℤ`,
`string` as `String`). -/
structure Data where
  Date : String := ""
  TakeoffLat : ℝ := 0
  TakeoffLon : ℝ := 0
  TakeoffPosition : String := ""
  TakeoffSite : String := ""
  LandingLat : ℝ := 0
  LandingLon : ℝ := 0
  LandingPosition : String := ""
  LandingSite : String := ""
  TakeoffAlt : Int := 0
  LandingAlt : Int := 0
  AltitudeDiff : Int := 0
  MaxAltitude : Int := 0
  MinAltitude : Int := 0
  MaxGroundSpeed : Int := 0
  MaxClimbRate : ℝ := 0
  MaxDescentRate : ℝ := 0
  FlightDuration : String := ""
  TakeoffTime : String := ""
  LandingTime : String := ""
  Pilot : String := ""
  Crew : String := ""
  GliderType : String := ""
  GliderID : String := ""
  CompetitionID : String := ""
  FlightRecorderType : String := ""
  Filename : String := ""
  AltitudeUnit : String := ""
  SpeedUnit : String := ""
  VerticalSpeedUnit : String := ""

/-- Embeds `logbook.TemplateData`: the aggregated collection summary. -/
structure TemplateData where
  Flights : List Data
  TotalTime : String
  TotalFlights : Nat
  FirstDate : String
  LastDate : String
  TotalDistance : ℝ
  AvgFlightTime : String
  MaxFlightTime : String
  MinFlightTime : String
  MaxAltitude : Int
  AvgMaxAltitude : Int
  UniquePilots : List String
  UniqueGliders : List String
  UniqueSites : List String
  AltitudeUnit : String
  SpeedUnit : String
  VerticalSpeedUnit : String

/-- The slice of `logbook.Options` read by `CreateTemplateData` (only the
three unit strings; the other fields feed `CreateData`, which is not part of
the aggregation path). -/
structure Options where
  AltitudeUnit : String := ""
  SpeedUnit : String := ""
  ClimbUnit : String := ""

/-! ## `logbook.CreateTemplateData`

The Go loop body performs a sequence of assignments, each reading only values
of the accumulator variables from before the current iteration (the two date
assignments guard on `i == 0 ||` comparisons against the pre-iteration
`firstDate` / `lastDate`). It is therefore embedded as a single record update
per iteration. Go maps (`pilots`, `gliders`, `sites`) are value sets whose
final iteration order is unspecified; they are modelled as
insertion-ordered duplicate-free lists. -/

/-- Accumulator state of the aggregation loop, one field per Go local. -/
structure AggState where
  totalDuration : Int
  maxDuration : Int
  minDuration : Int
  totalAltitude : Int
  maxAltitude : Int
  pilots : List String
  gliders : List String
  sites : List String
  firstDate : Date
  lastDate : Date

/-- Initial accumulator: zero values, except the 24-hour sentinel that seeds
`minDuration` (`var minDuration time.Duration = time.Hour * 24`). -/
def initState : AggState :=
  { totalDuration := 0, maxDuration := 0, minDuration := 24 * Hour,
    totalAltitude := 0, maxAltitude := 0,
    pilots := [], gliders := [], sites := [],
    firstDate := zeroDate, lastDate := zeroDate }

/-- Set insertion (`m[k] = true` on a Go map), modelled on ordered lists. -/
def insertUnique (l : List String) (s : String) : List String :=
  if s ∈ l then l else l ++ [s]

/-- One iteration of the `for i, flight := range flights` loop of
`CreateTemplateData`. -/
def aggStep (i : Nat) (st : AggState) (f : Data) : AggState :=
  { totalDuration :=
      match parseDuration f.FlightDuration with
      | some d => st.totalDuration + d
      | none => st.totalDuration,
    maxDuration :=
      match parseDuration f.FlightDuration with
      | some d => if st.maxDuration < d then d else st.maxDuration
      | none => st.maxDuration,
    minDuration :=
      match parseDuration f.FlightDuration with
      | some d => if d < st.minDuration then d else st.minDuration
      | none => st.minDuration,
    totalAltitude := st.totalAltitude + f.MaxAltitude,
    maxAltitude :=
      if st.maxAltitude < f.MaxAltitude then f.MaxAltitude else st.maxAltitude,
    pilots := if f.Pilot = "" then st.pilots else insertUnique st.pilots f.Pilot,
    gliders := if f.GliderType = "" then st.gliders else insertUnique st.gliders f.GliderType,
    sites := if f.TakeoffSite = "" then st.sites else insertUnique st.sites f.TakeoffSite,
    firstDate :=
      match parseDate f.Date with
      | some dt => if i == 0 || dt.before st.firstDate then dt else st.firstDate
      | none => st.firstDate,
    lastDate :=
      match parseDate f.Date with
      | some dt => if i == 0 || dt.after st.lastDate then dt else st.lastDate
      | none => st.lastDate }

/-- The indexed aggregation loop. -/
def aggLoop : Nat → AggState → List Data → AggState
  | _, st, [] => st
  | i, st, f :: fs => aggLoop (i + 1) (aggStep i st f) fs

/-- Embeds `logbook.CreateTemplateData`. -/
def CreateTemplateData (flights : List Data) (opts : Options) : TemplateData :=
  match flights with
  | [] =>
    { Flights := [], TotalTime := "", TotalFlights := 0,
      FirstDate := "", LastDate := "", TotalDistance := 0,
      AvgFlightTime := "", MaxFlightTime := "", MinFlightTime := "",
      MaxAltitude := 0, AvgMaxAltitude := 0,
      UniquePilots := [], UniqueGliders := [], UniqueSites := [],
      AltitudeUnit := AltitudeSymbol opts.AltitudeUnit,
      SpeedUnit := SpeedSymbol opts.SpeedUnit,
      VerticalSpeedUnit := ClimbSymbol opts.ClimbUnit }
  | _ =>
    let st := aggLoop 0 initState flights
    let avgFlightTime := st.totalDuration.tdiv (flights.length : Int)
    let avgMaxAltitude := st.totalAltitude.tdiv (flights.length : Int)
    let minDuration := if st.minDuration = 24 * Hour then 0 else st.minDuration
    { Flights := flights,
      TotalTime := FormatDuration st.totalDuration,
      TotalFlights := flights.length,
      FirstDate := formatDate st.firstDate,
      LastDate := formatDate st.lastDate,
      TotalDistance := 0,
      AvgFlightTime := FormatDuration avgFlightTime,
      MaxFlightTime := FormatDuration st.maxDuration,
      MinFlightTime := FormatDuration minDuration,
      MaxAltitude := st.maxAltitude,
      AvgMaxAltitude := avgMaxAltitude,
      UniquePilots := st.pilots,
      UniqueGliders := st.gliders,
      UniqueSites := st.sites,
      AltitudeUnit := AltitudeSymbol opts.AltitudeUnit,
      SpeedUnit := SpeedSymbol opts.SpeedUnit,
      VerticalSpeedUnit := ClimbSymbol opts.ClimbUnit }

/-- The flight durations of a batch that parse back successfully, in batch
order (the values the aggregation loop actually accumulates). -/
def parsedDurations (l : List Data) : List Int :=
  l.filterMap (fun f => parseDuration f.FlightDuration)

/-- The flight dates of a batch that parse back successfully, in batch
order. -/
def parsedDates (l : List Data) : List Date :=
  l.filterMap (fun f => parseDate f.Date)

/-! ## Track statistics engine (`internal/flight`) -/

/-- The fields of `igc.BRecord` read by the statistics engine: position in
degrees, GPS altitude (`AltWGS84`, a `float64`, in meters), and the time
stamp in seconds (Go computes `curr.Time.Sub(prev.Time).Seconds()`). -/
structure Fix where
  Lat : ℝ := 0
  Lon : ℝ := 0
  AltWGS84 : ℝ := 0
  Time : ℝ := 0
deriving Inhabited

/-- Embeds `flight.Flight`, restricted to its fix sequence: the descriptive metadata
fields (pilot, glider, ...) are never read by any statistics computation. -/
structure Flight where
  Fixes : List Fix

def EarthRadiusMeters : ℝ := 6371000

noncomputable def DegreesToRadians : ℝ := Real.pi / 180

def MinTimeDiffSeconds : ℝ := 1

/-- Go's `math.Atan2 y x`: the angle of the point `(x, y)`, by quadrant.
Signed zeros and non-finite values of `float64` are outside the real-number
model; for real arguments this is the standard two-argument arctangent. -/
noncomputable def atan2 (y x : ℝ) : ℝ :=
  if 0 < x then Real.arctan (y / x)
  else if x < 0 then
    (if 0 ≤ y then Real.arctan (y / x) + Real.pi else Real.arctan (y / x) - Real.pi)
  else if 0 < y then Real.pi / 2
  else if y < 0 then -(Real.pi / 2)
  else 0

/-- Embeds `flight.HaversineDistance`: great-circle distance in meters on a sphere
of radius `EarthRadiusMeters`. -/
noncomputable def HaversineDistance (lat1 lon1 lat2 lon2 : ℝ) : ℝ :=
  let lat1Rad := lat1 * DegreesToRadians
  let lon1Rad := lon1 * DegreesToRadians
  let lat2Rad := lat2 * DegreesToRadians
  let lon2Rad := lon2 * DegreesToRadians
  let dlat := lat2Rad - lat1Rad
  let dlon := lon2Rad - lon1Rad
  let a := Real.sin (dlat / 2) * Real.sin (dlat / 2) +
    Real.cos lat1Rad * Real.cos lat2Rad * (Real.sin (dlon / 2) * Real.sin (dlon / 2))
  let c := 2 * atan2 (Real.sqrt a) (Real.sqrt (1 - a))
  EarthRadiusMeters * c

/-- Go's `int(x)` conversion from `float64`: truncation toward zero. -/
noncomputable def goInt (x : ℝ) : Int := if 0 ≤ x then ⌊x⌋ else ⌈x⌉

/-- Embeds `Flight.CalculateMaxAltitude`: running maximum of `int(fix.AltWGS84)`
seeded with the first fix; `0` for an empty fix sequence. -/
noncomputable def CalculateMaxAltitude (f : Flight) : Int :=
  match f.Fixes with
  | [] => 0
  | first :: _ =>
    f.Fixes.foldl
      (fun maxAlt fix => if maxAlt < goInt fix.AltWGS84 then goInt fix.AltWGS84 else maxAlt)
      (goInt first.AltWGS84)

/-- Embeds `Flight.CalculateMinAltitude`. -/
noncomputable def CalculateMinAltitude (f : Flight) : Int :=
  match f.Fixes with
  | [] => 0
  | first :: _ =>
    f.Fixes.foldl
      (fun minAlt fix => if goInt fix.AltWGS84 < minAlt then goInt fix.AltWGS84 else minAlt)
      (goInt first.AltWGS84)

/-- Instantaneous speed in km/h of the consecutive pair `(i-1, i)`:
`HaversineDistance / timeDiff * 3.6` exactly as computed in the loop body of
`CalculateMaxGroundSpeed`. -/
noncomputable def pairSpeedKMH (fixes : List Fix) (i : Nat) : ℝ :=
  let prev := fixes.getD (i - 1) default
  let curr := fixes.getD i default
  HaversineDistance prev.Lat prev.Lon curr.Lat curr.Lon / (curr.Time - prev.Time) * 3.6

/-- The backward scan `for j := i - 1; j >= 0; j--` of
`CalculateMaxGroundSpeed`: starting at index `j` and walking toward `0`, find
the most recent prior fix whose elapsed time to `curr` meets the smoothing
window, and return the speed recomputed over that wider interval (`none` when
no prior fix is far enough back in time). -/
noncomputable def windowLookback (fixes : List Fix) (curr : Fix) (w : ℝ) : Nat → Option ℝ
  | 0 =>
    let prevWindow := fixes.getD 0 default
    let windowTimeDiff := curr.Time - prevWindow.Time
    if w ≤ windowTimeDiff then
      some (HaversineDistance prevWindow.Lat prevWindow.Lon curr.Lat curr.Lon /
        windowTimeDiff * 3.6)
    else none
  | j + 1 =>
    let prevWindow := fixes.getD (j + 1) default
    let windowTimeDiff := curr.Time - prevWindow.Time
    if w ≤ windowTimeDiff then
      some (HaversineDistance prevWindow.Lat prevWindow.Lon curr.Lat curr.Lon /
        windowTimeDiff * 3.6)
    else windowLookback fixes curr w j

/-- The value contributed to the running maximum by iteration `i` of the main
loop of `CalculateMaxGroundSpeed` (`none` when the pair is discarded for an
elapsed time below `MinTimeDiffSeconds`). -/
noncomputable def pairContribution (fixes : List Fix) (w : ℝ) (i : Nat) : Option ℝ :=
  let prev := fixes.getD (i - 1) default
  let curr := fixes.getD i default
  let timeDiff := curr.Time - prev.Time
  if timeDiff < MinTimeDiffSeconds then none
  else
    let speedKMH := HaversineDistance prev.Lat prev.Lon curr.Lat curr.Lon / timeDiff * 3.6
    if timeDiff < w ∧ 5 ≤ i then
      match windowLookback fixes curr w (i - 1) with
      | some windowSpeedKMH =>
        some (if windowSpeedKMH < speedKMH then windowSpeedKMH else speedKMH)
      | none => some speedKMH
    else some speedKMH

/-- Embeds `Flight.CalculateMaxGroundSpeed`. -/
noncomputable def CalculateMaxGroundSpeed (f : Flight) (minTimeWindowSeconds : ℝ) : ℝ :=
  if f.Fixes.length < 2 then 0
  else
    (List.range' 1 (f.Fixes.length - 1)).foldl
      (fun maxSpeed i =>
        match pairContribution f.Fixes minTimeWindowSeconds i with
        | some s => if maxSpeed < s then s else maxSpeed
        | none => maxSpeed) 0

/-- Following the spec's words: the *unwindowed instantaneous* contribution
of pair `i` — same pair discarding rule, no noise-mitigation lookback. This
is the comparison point of the windowing-monotonicity property. -/
noncomputable def instContribution (fixes : List Fix) (i : Nat) : Option ℝ :=
  let prev := fixes.getD (i - 1) default
  let curr := fixes.getD i default
  let timeDiff := curr.Time - prev.Time
  if timeDiff < MinTimeDiffSeconds then none
  else some (HaversineDistance prev.Lat prev.Lon curr.Lat curr.Lon / timeDiff * 3.6)

/-- Following the spec's words: the maximum of the instantaneous per-pair
speeds (the unwindowed computation). -/
noncomputable def instMaxGroundSpeed (f : Flight) : ℝ :=
  if f.Fixes.length < 2 then 0
  else
    (List.range' 1 (f.Fixes.length - 1)).foldl
      (fun maxSpeed i =>
        match instContribution f.Fixes i with
        | some s => if maxSpeed < s then s else maxSpeed
        | none => maxSpeed) 0

/-- The consecutive-pair loop of `Flight.CalculateVerticalSpeeds`, carrying
the running `(maxVerticalSpeed, minVerticalSpeed)` pair. -/
noncomputable def vsLoop : Fix → List Fix → ℝ × ℝ → ℝ × ℝ
  | _, [], acc => acc
  | prev, curr :: rest, (mx, mn) =>
    let timeDiff := curr.Time - prev.Time
    if timeDiff < MinTimeDiffSeconds then vsLoop curr rest (mx, mn)
    else
      let verticalSpeed := (curr.AltWGS84 - prev.AltWGS84) / timeDiff
      vsLoop curr rest
        (if mx < verticalSpeed then verticalSpeed else mx,
         if verticalSpeed < mn then verticalSpeed else mn)

/-- Embeds `Flight.CalculateVerticalSpeeds`: returns
`(maxVerticalSpeed, minVerticalSpeed)` in m/s, `(0, 0)` for fewer than two
fixes. -/
noncomputable def CalculateVerticalSpeeds (f : Flight) : ℝ × ℝ :=
  if f.Fixes.length < 2 then (0, 0)
  else
    match f.Fixes with
    | [] => (0, 0)
    | first :: rest => vsLoop first rest (0, 0)

/-- Embeds `flight.Statistics`. -/
structure Statistics where
  MaxAltitude : Int
  MinAltitude : Int
  MaxGroundSpeed : ℝ
  MaxClimbRate : ℝ
  MaxDescentRate : ℝ
  FlightDuration : ℝ

/-- Embeds `Flight.GetStatistics`: composes the individual calculations; the descent
rate is `math.Abs(minVerticalSpeed)` and the duration (in seconds) is the
time between last and first fix, `0` for fewer than two fixes. -/
noncomputable def GetStatistics (f : Flight) (speedWindow : ℝ) : Statistics :=
  let vs := CalculateVerticalSpeeds f
  let duration : ℝ :=
    if 2 ≤ f.Fixes.length then (f.Fixes.getLastD default).Time - (f.Fixes.headD default).Time
    else 0
  { MaxAltitude := CalculateMaxAltitude f,
    MinAltitude := CalculateMinAltitude f,
    MaxGroundSpeed := CalculateMaxGroundSpeed f speedWindow,
    MaxClimbRate := vs.1,
    MaxDescentRate := |vs.2|,
    FlightDuration := duration }

/-! ## Site resolver (`internal/sites`, `utils.FormatCoordinates`) -/

/-- Embeds `sites.LandingSite`; the Go center is an `orb.Point`, an array whose
index 0 is the longitude and index 1 the latitude. -/
structure LandingSite where
  Name : String
  CenterLon : ℝ
  CenterLat : ℝ
  Radius : ℝ

/-- Embeds `sites.Collection`. -/
structure Collection where
  Sites : List LandingSite

/-- Go's `fmt.Sprintf("%.3f", x)` on a real value: the value rounded to three
decimal places rendered with a sign, an integer part, and exactly three
fractional digits. (`float64` ties, never exactly representable at the third
decimal, are modelled as round-half-up.) -/
noncomputable def fmt3 (x : ℝ) : String :=
  let n : Int := round (x * 1000)
  let sign := if n < 0 then "-" else ""
  sign ++ toString (n.natAbs / 1000) ++ "." ++ padNum 3 (n.natAbs % 1000)

/-- Embeds `utils.FormatCoordinates`: `fmt.Sprintf("%.3f,%.3f", lat, lon)`. -/
noncomputable def FormatCoordinates (lat lon : ℝ) : String :=
  fmt3 lat ++ "," ++ fmt3 lon

/-- The `for _, site := range c.Sites` loop of `Collection.FindLandingSite`. -/
noncomputable def findSiteLoop (lat lon : ℝ) : List LandingSite → String
  | [] => FormatCoordinates lat lon
  | site :: rest =>
    if HaversineDistance lat lon site.CenterLat site.CenterLon ≤ site.Radius then site.Name
    else findSiteLoop lat lon rest

/-- Embeds `Collection.FindLandingSite`: first site (in collection order) whose
radius contains the query point, else the formatted coordinate fallback. -/
noncomputable def FindLandingSite (c : Collection) (lat lon : ℝ) : String :=
  findSiteLoop lat lon c.Sites

/-! ## Helper lemmas about the aggregation loop -/

lemma ctd_cons_TotalTime (f0 : Data) (rest : List Data) (opts : Options) :
    (CreateTemplateData (f0 :: rest) opts).TotalTime =
      FormatDuration (aggLoop 0 initState (f0 :: rest)).totalDuration := rfl

lemma ctd_cons_AvgFlightTime (f0 : Data) (rest : List Data) (opts : Options) :
    (CreateTemplateData (f0 :: rest) opts).AvgFlightTime =
      FormatDuration
        ((aggLoop 0 initState (f0 :: rest)).totalDuration.tdiv ((f0 :: rest).length : Int)) := rfl

lemma ctd_cons_MaxFlightTime (f0 : Data) (rest : List Data) (opts : Options) :
    (CreateTemplateData (f0 :: rest) opts).MaxFlightTime =
      FormatDuration (aggLoop 0 initState (f0 :: rest)).maxDuration := rfl

lemma ctd_cons_MinFlightTime (f0 : Data) (rest : List Data) (opts : Options) :
    (CreateTemplateData (f0 :: rest) opts).MinFlightTime =
      FormatDuration
        (if (aggLoop 0 initState (f0 :: rest)).minDuration = 24 * Hour then 0
         else (aggLoop 0 initState (f0 :: rest)).minDuration) := rfl

lemma ctd_cons_FirstDate (f0 : Data) (rest : List Data) (opts : Options) :
    (CreateTemplateData (f0 :: rest) opts).FirstDate =
      formatDate (aggLoop 0 initState (f0 :: rest)).firstDate := rfl

lemma ctd_cons_LastDate (f0 : Data) (rest : List Data) (opts : Options) :
    (CreateTemplateData (f0 :: rest) opts).LastDate =
      formatDate (aggLoop 0 initState (f0 :: rest)).lastDate := rfl

/-- A record whose duration fails to parse leaves the duration sum unchanged:
the final sum is the initial accumulator plus the sum of the durations that
parse. -/
lemma aggLoop_totalDuration (l : List Data) :
    ∀ (i : Nat) (st : AggState),
      (aggLoop i st l).totalDuration = st.totalDuration + (parsedDurations l).sum := by
  induction l with
  | nil => intro i st; simp [aggLoop, parsedDurations]
  | cons f fs ih =>
    intro i st
    show (aggLoop (i + 1) (aggStep i st f) fs).totalDuration = _
    rw [ih]
    simp only [parsedDurations, List.filterMap_cons]
    cases h : parseDuration f.FlightDuration with
    | none => simp [aggStep, h, parsedDurations]
    | some d => simp [aggStep, h, parsedDurations, List.sum_cons, add_assoc]

/-- The running maximum duration only sees the durations that parse. -/
lemma aggLoop_maxDuration (l : List Data) :
    ∀ (i : Nat) (st : AggState),
      (aggLoop i st l).maxDuration =
        (parsedDurations l).foldl (fun m d => if m < d then d else m) st.maxDuration := by
  induction l with
  | nil => intro i st; simp [aggLoop, parsedDurations]
  | cons f fs ih =>
    intro i st
    show (aggLoop (i + 1) (aggStep i st f) fs).maxDuration = _
    rw [ih]
    simp only [parsedDurations, List.filterMap_cons]
    cases h : parseDuration f.FlightDuration with
    | none => simp [aggStep, h, parsedDurations]
    | some d => simp [aggStep, h, parsedDurations]

/-- The running minimum duration only sees the durations that parse. -/
lemma aggLoop_minDuration (l : List Data) :
    ∀ (i : Nat) (st : AggState),
      (aggLoop i st l).minDuration =
        (parsedDurations l).foldl (fun m d => if d < m then d else m) st.minDuration := by
  induction l with
  | nil => intro i st; simp [aggLoop, parsedDurations]
  | cons f fs ih =>
    intro i st
    show (aggLoop (i + 1) (aggStep i st f) fs).minDuration = _
    rw [ih]
    simp only [parsedDurations, List.filterMap_cons]
    cases h : parseDuration f.FlightDuration with
    | none => simp [aggStep, h, parsedDurations]
    | some d => simp [aggStep, h, parsedDurations]

/-- Away from index 0, `firstDate` is the running lexicographic minimum of
the dates that parse. -/
lemma aggLoop_firstDate (l : List Data) :
    ∀ (i : Nat) (st : AggState), i ≠ 0 →
      (aggLoop i st l).firstDate =
        (parsedDates l).foldl (fun m dt => if dt.before m then dt else m) st.firstDate := by
  induction l with
  | nil => intro i st _; simp [aggLoop, parsedDates]
  | cons f fs ih =>
    intro i st hi
    show (aggLoop (i + 1) (aggStep i st f) fs).firstDate = _
    rw [ih (i + 1) _ i.succ_ne_zero]
    have hb : (i == 0) = false := by
      simpa using hi
    simp only [parsedDates, List.filterMap_cons]
    cases h : parseDate f.Date with
    | none => simp [aggStep, h, parsedDates]
    | some dt => simp [aggStep, h, hb, parsedDates]

/-- Away from index 0, `lastDate` is the running lexicographic maximum of the
dates that parse. -/
lemma aggLoop_lastDate (l : List Data) :
    ∀ (i : Nat) (st : AggState), i ≠ 0 →
      (aggLoop i st l).lastDate =
        (parsedDates l).foldl (fun m dt => if dt.after m then dt else m) st.lastDate := by
  induction l with
  | nil => intro i st _; simp [aggLoop, parsedDates]
  | cons f fs ih =>
    intro i st hi
    show (aggLoop (i + 1) (aggStep i st f) fs).lastDate = _
    rw [ih (i + 1) _ i.succ_ne_zero]
    have hb : (i == 0) = false := by
      simpa using hi
    simp only [parsedDates, List.filterMap_cons]
    cases h : parseDate f.Date with
    | none => simp [aggStep, h, parsedDates]
    | some dt => simp [aggStep, h, hb, parsedDates]

/-- A fold by running minimum sticks at its seed when no element undercuts
it. -/
lemma foldl_min_stays (ds : List Int) :
    ∀ m : Int, (∀ d ∈ ds, ¬ d < m) → ds.foldl (fun m d => if d < m then d else m) m = m := by
  induction ds with
  | nil => intro m _; rfl
  | cons d ds ih =>
    intro m h
    simp only [List.foldl_cons, if_neg (h d (List.mem_cons_self d ds))]
    exact ih m fun e he => h e (List.mem_cons_of_mem d he)

/-- Restricting a batch to the records whose duration strings parse does not
change the list of parsed durations. -/
lemma parsedDurations_filter (l : List Data) :
    parsedDurations (l.filter (fun f => (parseDuration f.FlightDuration).isSome)) =
      parsedDurations l := by
  induction l with
  | nil => rfl
  | cons f fs ih =>
    simp only [parsedDurations, List.filter_cons]
    cases h : parseDuration f.FlightDuration with
    | none => simpa [parsedDurations, h] using ih
    | some d => simpa [parsedDurations, h] using ih

/-! ## Claim theorems -/

/-- C8: Aggregating an empty sequence of `FlightSummary` records returns a
result (not an error) whose `TotalFlights` is 0 and whose `FirstDate` and
`LastDate` are blank strings. -/
theorem createTemplateData_empty (opts : Options) :
    (CreateTemplateData [] opts).TotalFlights = 0 ∧
      (CreateTemplateData [] opts).FirstDate = "" ∧
      (CreateTemplateData [] opts).LastDate = "" :=
  ⟨rfl, rfl, rfl⟩

/-- C9: The aggregator seeds its running minimum flight duration with a
24-hour sentinel and resets it to zero only if no parsed duration undercut
the sentinel; for every non-empty batch in which every successfully parsed
flight duration is at least 24 hours, `MinFlightTime` is reported as
`"0h0m"`. -/
theorem minFlightTime_sentinel (flights : List Data) (opts : Options)
    (hne : flights ≠ [])
    (hdur : ∀ f ∈ flights, ∀ d : Int, parseDuration f.FlightDuration = some d → 24 * Hour ≤ d) :
    (CreateTemplateData flights opts).MinFlightTime = "0h0m" := by
  match flights, hne with
  | f0 :: rest, _ =>
    rw [ctd_cons_MinFlightTime, aggLoop_minDuration]
    have hstay :
        (parsedDurations (f0 :: rest)).foldl (fun m d => if d < m then d else m)
            initState.minDuration = initState.minDuration := by
      apply foldl_min_stays
      intro d hd
      rw [parsedDurations, List.mem_filterMap] at hd
      obtain ⟨f, hf, hparse⟩ := hd
      exact not_lt.mpr (hdur f hf d hparse)
    rw [hstay]
    rfl

/-- C9 witness: a single record whose duration parses as 25 hours. -/
theorem minFlightTime_sentinel_witness :
    ([({ FlightDuration := "25h0m" } : Data)] ≠ []) ∧
      (CreateTemplateData [({ FlightDuration := "25h0m" } : Data)] {}).MinFlightTime = "0h0m" := by
  refine ⟨List.cons_ne_nil _ _, minFlightTime_sentinel _ {} (List.cons_ne_nil _ _) ?_⟩
  intro f hf d hd
  rw [List.mem_singleton] at hf
  subst hf
  rw [show parseDuration ({ FlightDuration := "25h0m" } : Data).FlightDuration =
      some 90000000000000 from by decide] at hd
  cases hd
  decide

/-- C6: Aggregating exactly two `FlightSummary` records whose
`FlightDuration` strings are `"1h0m"` and `"2h30m"` yields
`TotalTime = "3h30m"`, `AvgFlightTime = "1h45m"`, `MaxFlightTime = "2h30m"`,
and `MinFlightTime = "1h0m"`. -/
theorem aggregate_two_durations (f1 f2 : Data) (opts : Options)
    (h1 : f1.FlightDuration = "1h0m") (h2 : f2.FlightDuration = "2h30m") :
    (CreateTemplateData [f1, f2] opts).TotalTime = "3h30m" ∧
      (CreateTemplateData [f1, f2] opts).AvgFlightTime = "1h45m" ∧
      (CreateTemplateData [f1, f2] opts).MaxFlightTime = "2h30m" ∧
      (CreateTemplateData [f1, f2] opts).MinFlightTime = "1h0m" := by
  have hp : parsedDurations [f1, f2] = [3600000000000, 9000000000000] := by
    simp only [parsedDurations, List.filterMap_cons, h1, h2]
    rw [show parseDuration "1h0m" = some 3600000000000 from by decide,
        show parseDuration "2h30m" = some 9000000000000 from by decide]
    rfl
  refine ⟨?_, ?_, ?_, ?_⟩
  · rw [ctd_cons_TotalTime, aggLoop_totalDuration, hp]; decide
  · rw [ctd_cons_AvgFlightTime, aggLoop_totalDuration, hp]
    simp only [List.length_cons, List.length_nil]
    decide
  · rw [ctd_cons_MaxFlightTime, aggLoop_maxDuration, hp]; decide
  · rw [ctd_cons_MinFlightTime, aggLoop_minDuration, hp]; decide

/-- C6 witness: the two concrete records of the spec's example. -/
theorem aggregate_two_durations_witness :
    (({ FlightDuration := "1h0m" } : Data).FlightDuration = "1h0m") ∧
      (CreateTemplateData
          [({ FlightDuration := "1h0m" } : Data), ({ FlightDuration := "2h30m" } : Data)]
          {}).TotalTime = "3h30m" :=
  ⟨rfl, (aggregate_two_durations _ _ {} rfl rfl).1⟩

/-- A record whose date string does not parse, placed first in the batch. -/
def badDateFlight : Data := { FlightDuration := "2h30m", Date := "not-a-date" }

/-- A record whose date and duration strings both parse. -/
def goodDateFlight : Data := { FlightDuration := "1h0m", Date := "2024-05-05" }

/-- C1 counterexample: when the first record's date string fails to parse,
`FirstDate` of the batch is the formatted zero time `"0001-01-01"`, not the
date range computed over only the records whose strings parse (aggregating
just the parsing records gives `"2024-05-05"`): later parsed dates are
compared against the zero-time seed with `Before`, which never holds. -/
theorem firstDate_counterexample :
    ([badDateFlight, goodDateFlight].filter (fun f => (parseDate f.Date).isSome) =
        [goodDateFlight]) ∧
      (CreateTemplateData [badDateFlight, goodDateFlight] {}).FirstDate = "0001-01-01" ∧
      (CreateTemplateData [goodDateFlight] {}).FirstDate = "2024-05-05" ∧
      (CreateTemplateData [badDateFlight, goodDateFlight] {}).FirstDate ≠
        (CreateTemplateData [goodDateFlight] {}).FirstDate := by
  refine ⟨rfl, rfl, rfl, ?_⟩
  decide

/-- C1 (amended): records whose duration strings fail to parse are excluded
from the duration sum and max/min extremes, no error is raised, and —
provided the *first* record's date string parses — the batch date range
equals the min/max over the records whose date strings parse (the first
parsed date seeds both ends of the range). -/
theorem createTemplateData_partial_failure (f0 : Data) (rest : List Data) (opts : Options)
    (d0 : Date) (h0 : parseDate f0.Date = some d0) :
    (CreateTemplateData (f0 :: rest) opts).TotalTime =
        FormatDuration (parsedDurations (f0 :: rest)).sum ∧
      (CreateTemplateData (f0 :: rest) opts).MaxFlightTime =
        FormatDuration
          ((parsedDurations (f0 :: rest)).foldl (fun m d => if m < d then d else m) 0) ∧
      (CreateTemplateData (f0 :: rest) opts).MinFlightTime =
        FormatDuration
          (if (parsedDurations (f0 :: rest)).foldl (fun m d => if d < m then d else m)
                (24 * Hour) = 24 * Hour
           then 0
           else (parsedDurations (f0 :: rest)).foldl (fun m d => if d < m then d else m)
                (24 * Hour)) ∧
      (CreateTemplateData (f0 :: rest) opts).FirstDate =
        formatDate ((parsedDates rest).foldl (fun m dt => if dt.before m then dt else m) d0) ∧
      (CreateTemplateData (f0 :: rest) opts).LastDate =
        formatDate ((parsedDates rest).foldl (fun m dt => if dt.after m then dt else m) d0) := by
  refine ⟨?_, ?_, ?_, ?_, ?_⟩
  · rw [ctd_cons_TotalTime, aggLoop_totalDuration]
    show FormatDuration (0 + (parsedDurations (f0 :: rest)).sum) = _
    rw [zero_add]
  · rw [ctd_cons_MaxFlightTime, aggLoop_maxDuration]
    exact rfl
  · rw [ctd_cons_MinFlightTime, aggLoop_minDuration]
    exact rfl
  · rw [ctd_cons_FirstDate,
      show aggLoop 0 initState (f0 :: rest) = aggLoop 1 (aggStep 0 initState f0) rest from rfl,
      aggLoop_firstDate rest 1 _ one_ne_zero]
    congr 1
    simp [aggStep, h0]
  · rw [ctd_cons_LastDate,
      show aggLoop 0 initState (f0 :: rest) = aggLoop 1 (aggStep 0 initState f0) rest from rfl,
      aggLoop_lastDate rest 1 _ one_ne_zero]
    congr 1
    simp [aggStep, h0]

/-- C1 witness: a batch whose first record's date parses, followed by a
record with an unparseable date. -/
theorem createTemplateData_partial_failure_witness :
    parseDate goodDateFlight.Date = some ⟨2024, 5, 5⟩ ∧
      (CreateTemplateData [goodDateFlight, badDateFlight] {}).FirstDate =
        formatDate
          ((parsedDates [badDateFlight]).foldl (fun m dt => if dt.before m then dt else m)
            ⟨2024, 5, 5⟩) :=
  ⟨rfl,
    (createTemplateData_partial_failure goodDateFlight [badDateFlight] {} ⟨2024, 5, 5⟩
      rfl).2.2.2.1⟩

/-- The haversine distance from a point to itself vanishes. -/
lemma haversine_self (lat lon : ℝ) : HaversineDistance lat lon lat lon = 0 := by
  norm_num [HaversineDistance, atan2, Real.arctan_zero]

/-- C10: `HaversineDistance` is symmetric in its two points. -/
theorem haversineDistance_symm (lat1 lon1 lat2 lon2 : ℝ) :
    HaversineDistance lat1 lon1 lat2 lon2 = HaversineDistance lat2 lon2 lat1 lon1 := by
  have key : ∀ a1 b1 a2 b2 : ℝ,
      Real.sin ((a2 - a1) / 2) * Real.sin ((a2 - a1) / 2) +
          Real.cos a1 * Real.cos a2 *
            (Real.sin ((b2 - b1) / 2) * Real.sin ((b2 - b1) / 2)) =
        Real.sin ((a1 - a2) / 2) * Real.sin ((a1 - a2) / 2) +
          Real.cos a2 * Real.cos a1 *
            (Real.sin ((b1 - b2) / 2) * Real.sin ((b1 - b2) / 2)) := by
    intro a1 b1 a2 b2
    rw [show (a2 - a1) / 2 = -((a1 - a2) / 2) by ring, Real.sin_neg,
      show (b2 - b1) / 2 = -((b1 - b2) / 2) by ring, Real.sin_neg]
    ring
  simp only [HaversineDistance]
  rw [key]

/-- C7: for a flight with zero fixes the statistics are all zero: altitude
extremes, max ground speed, climb and descent rates, and duration. -/
theorem getStatistics_empty (w : ℝ) :
    GetStatistics ⟨[]⟩ w = ⟨0, 0, 0, 0, 0, 0⟩ := by
  norm_num [GetStatistics, CalculateMaxAltitude, CalculateMinAltitude,
    CalculateMaxGroundSpeed, CalculateVerticalSpeeds, Statistics.mk.injEq]

/-- Three fixes at 10-second spacing with GPS-altitude deltas +100 m then
−50 m. -/
def climbFlight : Flight := ⟨[⟨0, 0, 1000, 0⟩, ⟨0, 0, 1100, 10⟩, ⟨0, 0, 1050, 20⟩]⟩

/-- C5: for three fixes spaced 10 seconds apart with altitude deltas +100 m
then −50 m, the vertical-speed computation reports a maximum climb rate of
10 m/s and a maximum descent rate of 5 m/s, the descent rate being the
absolute value of the running minimum vertical speed. -/
theorem verticalSpeeds_example :
    CalculateVerticalSpeeds climbFlight = (10, -5) ∧
      (GetStatistics climbFlight 5).MaxClimbRate = 10 ∧
      (GetStatistics climbFlight 5).MaxDescentRate = 5 := by
  have h : CalculateVerticalSpeeds climbFlight = (10, -5) := by
    norm_num [CalculateVerticalSpeeds, climbFlight, vsLoop, MinTimeDiffSeconds]
  refine ⟨h, ?_, ?_⟩
  · show (CalculateVerticalSpeeds climbFlight).1 = 10
    rw [h]
  · show |(CalculateVerticalSpeeds climbFlight).2| = 5
    rw [h]
    show |(-5 : ℝ)| = 5
    rw [abs_neg]
    exact abs_of_nonneg (by norm_num)

/-- The site-resolution loop returns the name of the first matching site of
the collection, whatever follows it. -/
lemma findSiteLoop_first (lat lon : ℝ) (s : LandingSite) (post : List LandingSite)
    (hs : HaversineDistance lat lon s.CenterLat s.CenterLon ≤ s.Radius) :
    ∀ pre : List LandingSite,
      (∀ t ∈ pre, ¬ HaversineDistance lat lon t.CenterLat t.CenterLon ≤ t.Radius) →
      findSiteLoop lat lon (pre ++ s :: post) = s.Name := by
  intro pre
  induction pre with
  | nil => intro _; simp [findSiteLoop, hs]
  | cons t ts ih =>
    intro h
    have ht := h t (List.mem_cons_self t ts)
    simp only [List.cons_append, findSiteLoop, if_neg ht]
    exact ih fun u hu => h u (List.mem_cons_of_mem t hu)

/-- C3: if at least one site's haversine distance from its center to the
query point is at or below that site's radius, `FindLandingSite` returns the
name of the first such site in collection order — whatever sites follow it,
including geometrically closer ones. -/
theorem findLandingSite_first_match (lat lon : ℝ) (c : Collection)
    (pre post : List LandingSite) (s : LandingSite)
    (hdecomp : c.Sites = pre ++ s :: post)
    (hpre : ∀ t ∈ pre, ¬ HaversineDistance lat lon t.CenterLat t.CenterLon ≤ t.Radius)
    (hs : HaversineDistance lat lon s.CenterLat s.CenterLon ≤ s.Radius) :
    FindLandingSite c lat lon = s.Name := by
  show findSiteLoop lat lon c.Sites = s.Name
  rw [hdecomp]
  exact findSiteLoop_first lat lon s post hs pre hpre

/-- A site containing the query point used in the resolver witnesses. -/
def siteA : LandingSite := ⟨"A", 0, 0, 100⟩

/-- A later site whose center coincides with the query point (as close as a
center can be). -/
def siteB : LandingSite := ⟨"B", 0, 0, 50⟩

/-- C3 witness: the query point sits inside the first site's radius while a
later site's center is at least as close; the first site's name is
returned. -/
theorem findLandingSite_first_match_witness :
    HaversineDistance 0 0 siteA.CenterLat siteA.CenterLon ≤ siteA.Radius ∧
      FindLandingSite ⟨[siteA, siteB]⟩ 0 0 = "A" := by
  have hA : HaversineDistance 0 0 siteA.CenterLat siteA.CenterLon ≤ siteA.Radius := by
    show HaversineDistance 0 0 (0 : ℝ) (0 : ℝ) ≤ (100 : ℝ)
    rw [haversine_self]
    norm_num
  exact ⟨hA, findLandingSite_first_match 0 0 ⟨[siteA, siteB]⟩ [] [siteB] siteA rfl
    (by simp) hA⟩

/-- The site-resolution loop falls through to the coordinate fallback when
every site's radius is exceeded. -/
lemma findSiteLoop_fallback (lat lon : ℝ) :
    ∀ l : List LandingSite,
      (∀ s ∈ l, s.Radius < HaversineDistance lat lon s.CenterLat s.CenterLon) →
      findSiteLoop lat lon l = FormatCoordinates lat lon := by
  intro l
  induction l with
  | nil => intro _; rfl
  | cons t ts ih =>
    intro h
    have ht := not_le.mpr (h t (List.mem_cons_self t ts))
    simp only [findSiteLoop, if_neg ht]
    exact ih fun u hu => h u (List.mem_cons_of_mem t hu)

/-- C4: when the query point's haversine distance to every site's center
strictly exceeds that site's radius — and unconditionally for an empty site
collection — `FindLandingSite` returns the coordinate fallback string:
latitude then longitude, each formatted to three decimal places, separated
by a comma. -/
theorem findLandingSite_fallback (lat lon : ℝ) (c : Collection)
    (h : ∀ s ∈ c.Sites, s.Radius < HaversineDistance lat lon s.CenterLat s.CenterLon) :
    FindLandingSite c lat lon = FormatCoordinates lat lon ∧
      FindLandingSite ⟨[]⟩ lat lon = FormatCoordinates lat lon ∧
      FormatCoordinates lat lon = fmt3 lat ++ "," ++ fmt3 lon :=
  ⟨findSiteLoop_fallback lat lon c.Sites h, rfl, rfl⟩

/-- A site whose (degenerate, negative) radius is exceeded by every
distance. -/
def farSite : LandingSite := ⟨"A", 0, 0, -1⟩

/-- C4 witness: a collection whose only site's radius is strictly below the
query point's distance to its center. -/
theorem findLandingSite_fallback_witness :
    (∀ s ∈ (⟨[farSite]⟩ : Collection).Sites,
        s.Radius < HaversineDistance 0 0 s.CenterLat s.CenterLon) ∧
      FindLandingSite ⟨[farSite]⟩ 0 0 = FormatCoordinates 0 0 := by
  have h : ∀ s ∈ (⟨[farSite]⟩ : Collection).Sites,
      s.Radius < HaversineDistance 0 0 s.CenterLat s.CenterLon := by
    intro s hs
    have hsf : s = farSite := by simpa using hs
    subst hsf
    show (-1 : ℝ) < HaversineDistance 0 0 (0 : ℝ) (0 : ℝ)
    rw [haversine_self]
    norm_num
  exact ⟨h, (findLandingSite_fallback 0 0 ⟨[farSite]⟩ h).1⟩

/-- Embeds `if a < b then b else a` is the binary maximum (the accumulation step of
both ground-speed folds). -/
lemma ite_max (a b : ℝ) : (if a < b then b else a) = max a b := by
  rcases lt_or_ge a b with h | h
  · rw [if_pos h, max_eq_right h.le]
  · rw [if_neg (not_lt.mpr h), max_eq_left h]

/-- A pair discarded by the windowed loop (sub-second elapsed time) is also
discarded by the unwindowed instantaneous computation. -/
lemma pairContribution_none_inst (fixes : List Fix) (w : ℝ) (i : Nat)
    (h : pairContribution fixes w i = none) : instContribution fixes i = none := by
  dsimp only [pairContribution] at h
  dsimp only [instContribution]
  by_cases h1 : (fixes.getD i default).Time - (fixes.getD (i - 1) default).Time <
      MinTimeDiffSeconds
  · rw [if_pos h1]
  · rw [if_neg h1] at h
    split at h
    · split at h
      · cases h
      · cases h
    · cases h

/-- A pair the windowed loop keeps contributes at most its unwindowed
instantaneous speed: the wider-interval recomputation replaces it only when
strictly lower. -/
lemma pairContribution_le_inst (fixes : List Fix) (w : ℝ) (i : Nat) (s : ℝ)
    (h : pairContribution fixes w i = some s) :
    instContribution fixes i = some (pairSpeedKMH fixes i) ∧ s ≤ pairSpeedKMH fixes i := by
  dsimp only [pairContribution] at h
  dsimp only [instContribution, pairSpeedKMH]
  by_cases h1 : (fixes.getD i default).Time - (fixes.getD (i - 1) default).Time <
      MinTimeDiffSeconds
  · rw [if_pos h1] at h
    cases h
  · rw [if_neg h1] at h
    rw [if_neg h1]
    refine ⟨rfl, ?_⟩
    split at h
    · split at h
      · injection h with h
        subst h
        split
        · next h3 => exact le_of_lt h3
        · exact le_refl _
      · injection h with h
        subst h
        exact le_refl _
    · injection h with h
      subst h
      exact le_refl _

/-- Pointwise domination of the contribution folds: the windowed running
maximum stays below the instantaneous running maximum. -/
lemma gsFold_le (fixes : List Fix) (w : ℝ) :
    ∀ (idxs : List Nat) (m m' : ℝ), m ≤ m' →
      (idxs.foldl (fun maxSpeed i =>
          match pairContribution fixes w i with
          | some s => if maxSpeed < s then s else maxSpeed
          | none => maxSpeed) m) ≤
        (idxs.foldl (fun maxSpeed i =>
          match instContribution fixes i with
          | some s => if maxSpeed < s then s else maxSpeed
          | none => maxSpeed) m') := by
  intro idxs
  induction idxs with
  | nil => intro m m' h; exact h
  | cons i idxs ih =>
    intro m m' h
    simp only [List.foldl_cons]
    apply ih
    cases hp : pairContribution fixes w i with
    | none =>
      rw [pairContribution_none_inst fixes w i hp]
      exact h
    | some s =>
      obtain ⟨hi, hle⟩ := pairContribution_le_inst fixes w i s hp
      rw [hi]
      show (if m < s then s else m) ≤
        (if m' < pairSpeedKMH fixes i then pairSpeedKMH fixes i else m')
      rw [ite_max, ite_max]
      exact max_le_max h hle

/-- C2: for every flight and every smoothing window, the value each
consecutive fix pair contributes to the running maximum is at most that
pair's unwindowed instantaneous speed, so the windowed maximum ground speed
never exceeds the maximum of the instantaneous per-pair speeds. -/
theorem maxGroundSpeed_windowing (f : Flight) (w : ℝ) :
    (∀ (i : Nat) (s : ℝ), pairContribution f.Fixes w i = some s →
        s ≤ pairSpeedKMH f.Fixes i) ∧
      CalculateMaxGroundSpeed f w ≤ instMaxGroundSpeed f := by
  constructor
  · intro i s h
    exact (pairContribution_le_inst f.Fixes w i s h).2
  · unfold CalculateMaxGroundSpeed instMaxGroundSpeed
    by_cases hlen : f.Fixes.length < 2
    · rw [if_pos hlen, if_pos hlen]
    · rw [if_neg hlen, if_neg hlen]
      exact gsFold_le f.Fixes w _ 0 0 le_rfl

/-- A stationary fix at time 0. -/
def stillFixA : Fix := {}

/-- The same position ten seconds later. -/
def stillFixB : Fix := { Time := 10 }

/-- C2 witness: a two-fix flight whose single pair is kept (10-second
spacing) and contributes speed 0. -/
theorem maxGroundSpeed_windowing_witness :
    (0 : ℝ) ≤ pairSpeedKMH [stillFixA, stillFixB] 1 ∧
      CalculateMaxGroundSpeed ⟨[stillFixA, stillFixB]⟩ 5 ≤
        instMaxGroundSpeed ⟨[stillFixA, stillFixB]⟩ := by
  have hpc : pairContribution [stillFixA, stillFixB] 5 1 = some 0 := by
    norm_num [pairContribution, stillFixA, stillFixB, MinTimeDiffSeconds, haversine_self]
  exact ⟨(maxGroundSpeed_windowing ⟨[stillFixA, stillFixB]⟩ 5).1 1 0 hpc,
    (maxGroundSpeed_windowing ⟨[stillFixA, stillFixB]⟩ 5).2⟩

end IGC
